import Mathlib

/-!
Verification development for the two-diode junction model of solcore
(`solcore/junctions/two_diode_junction.py`).

The Python module is embedded shallowly over the real numbers:

* `TwoDiodeData` mirrors the `NamedTuple` of the same name;
* `iv_no_rs` and `iv2diode` mirror the two module-level solver functions,
  with `scipy.optimize.root` abstracted as a `RootFinder` argument;
* `TwoDiodeJunction` and its methods `from_reference`, `solve_iv`,
  `solve_qe`, `solve_equilibrium`, `solve_short_circuit` and `_get_jsc`
  (spelled `get_jsc`) mirror the dataclass; the inherited
  `JunctionBase.iv_parameters` helper is abstracted as a function argument;
* Python exceptions are modelled by `Except PyError`;
* `xarray.DataArray.integrate` (trapezoidal rule along a coordinate) is
  modelled by `trapezoid`;
* `collections.ChainMap` over two mappings is modelled by `chainMap`
  on lookup functions (first mapping consulted first).
-/

namespace Solcore

noncomputable section

/-- Elementary charge in coulomb, from `solcore.constants`. -/
def q : ℝ := 1.602176634e-19

/-- Boltzmann constant in joule per kelvin, from `solcore.constants`. -/
def kb : ℝ := 1.380649e-23

/-- The Python exceptions that the embedded code can raise. -/
inductive PyError where
  | typeError : PyError
  | runtimeError : String → PyError
  | notImplementedError : PyError

/-- Mirror of the `TwoDiodeData` NamedTuple: parameters of the 2-diode
equation.  `jsc = none` mirrors Python's `jsc=None`. -/
structure TwoDiodeData where
  t : ℝ
  j01 : ℝ
  j02 : ℝ
  n1 : ℝ
  n2 : ℝ
  rs : ℝ
  rsh : ℝ
  jsc : Option ℝ

/-- The default field values of `TwoDiodeData` (`TwoDiodeData()` in Python). -/
def defaultData : TwoDiodeData :=
  { t := 297, j01 := 1e-6, j02 := 0, n1 := 1, n2 := 2, rs := 0,
    rsh := 1e14, jsc := none }

/-- The scalar two-diode current at a single voltage, for a resolved
(numeric) short-circuit current `jscv`: the elementwise body of
`iv_no_rs`. -/
def diodeCurrent (data : TwoDiodeData) (jscv : ℝ) (x : ℝ) : ℝ :=
  data.j01 * (Real.exp (q * x / (data.n1 * kb * data.t)) - 1)
    + data.j02 * (Real.exp (q * x / (data.n2 * kb * data.t)) - 1)
    + x / data.rsh - jscv

/-- Mirror of `iv_no_rs(v, data)`: the explicit two-diode evaluator.
When `data.jsc` is `None` the final subtraction `v / data.rsh - data.jsc`
raises `TypeError` in Python (array minus `None`). -/
def iv_no_rs (v : List ℝ) (data : TwoDiodeData) : Except PyError (List ℝ) :=
  match data.jsc with
  | none => .error .typeError
  | some jscv => .ok (v.map (diodeCurrent data jscv))

/-- Result object of `scipy.optimize.root`: solution array, success flag and
a printable status (`sol` appears in the error message via `f"...{sol}"`). -/
structure RootResult where
  x : List ℝ
  success : Bool
  info : String

/-- Abstraction of `scipy.optimize.root`: receives the keyword options, the
residual function and the initial guess. -/
def RootFinder : Type :=
  List (String × String) → (List ℝ → List ℝ) → List ℝ → RootResult

/-- `np.min` over a list (the embedded code never calls it on `[]`). -/
def listMin : List ℝ → ℝ
  | [] => 0
  | x :: xs => xs.foldl min x

/-- `np.max` over a list (the embedded code never calls it on `[]`). -/
def listMax : List ℝ → ℝ
  | [] => 0
  | x :: xs => xs.foldl max x

/-- The residual closure `fun(j) = j - iv_no_rs(v - data.rs * j, data)`
built inside `iv2diode`, elementwise over the arrays. -/
def ivResidual (v : List ℝ) (data : TwoDiodeData) (jscv : ℝ)
    (j : List ℝ) : List ℝ :=
  List.zipWith (fun jk vk => jk - diodeCurrent data jscv (vk - data.rs * jk)) j v

/-- The initial guess
`jguess = np.clip(current, np.min(v) / data.rs, np.max(v) / data.rs)`
of `iv2diode`, where `np.clip a lo hi = min (max a lo) hi` elementwise. -/
def ivGuess (v : List ℝ) (data : TwoDiodeData) (jscv : ℝ) : List ℝ :=
  (v.map (diodeCurrent data jscv)).map fun c =>
    min (max c (listMin v / data.rs)) (listMax v / data.rs)

/-- Mirror of `iv2diode(v, data, **kwargs)`: explicit evaluation when
`data.rs == 0`, otherwise a root find on `ivResidual` from `ivGuess`,
raising `RuntimeError` with the solver's status on failure. -/
def iv2diode (rf : RootFinder) (kwargs : List (String × String))
    (v : List ℝ) (data : TwoDiodeData) : Except PyError (List ℝ) :=
  match data.jsc with
  | none => .error .typeError
  | some jscv =>
    let current := v.map (diodeCurrent data jscv)
    if data.rs = 0 then .ok current
    else
      let sol := rf kwargs (ivResidual v data jscv) (ivGuess v data jscv)
      if sol.success then .ok sol.x
      else .error (.runtimeError
        ("The IV calculation failed to converge. Solver info:\n" ++ sol.info))

/-- Trapezoidal integration `np.trapz` of samples `ys` against coordinates
`xs`, as performed by `xarray.DataArray.integrate`. -/
def trapezoid : List ℝ → List ℝ → ℝ
  | x1 :: x2 :: xs, y1 :: y2 :: ys =>
      (x2 - x1) * (y1 + y2) / 2 + trapezoid (x2 :: xs) (y2 :: ys)
  | _, _ => 0

/-- An `xr.DataArray` of absorbed fraction over the coordinates
`wavelength` and `position`: `values` is indexed first by wavelength, then
by position. -/
structure Absorption where
  wavelength : List ℝ
  position : List ℝ
  values : List (List ℝ)

/-- The external light-source collaborator: `spectrum` returns the photon
flux for each requested wavelength. -/
structure LightSource where
  spectrum : List ℝ → List ℝ

/-- The `xr.Dataset` returned by `solve_qe`: `eqe` and `iqe` indexed by
wavelength. -/
structure QEDataset where
  eqe : List ℝ
  iqe : List ℝ

/-- The `xr.Dataset` returned by `solve_iv`: the current over the input
voltage coordinate, plus the attrs mapping of performance parameters. -/
structure IVDataset where
  voltage : List ℝ
  current : List ℝ
  attrs : List (String × ℝ)

/-- `collections.ChainMap(m1, m2)` as a lookup function: `m1` is consulted
first, and only on a miss is `m2` consulted. -/
def chainMap (m1 m2 : String → Option ℝ) : String → Option ℝ :=
  fun k => match m1 k with
    | some x => some x
    | none => m2 k

/-- Mirror of the frozen dataclass `TwoDiodeJunction`: the parameter record,
the auxiliary `params` mapping and the solver `options` mapping. -/
structure TwoDiodeJunction where
  data : TwoDiodeData
  params : Option (String → Option ℝ)
  options : Option (List (String × String))

/-- Lookup of a key in a junction's `params` mapping (Python
`junction.params[key]`), `none` when `params` is `None` or the key misses. -/
def paramsFind (self : TwoDiodeJunction) (key : String) : Option ℝ :=
  match self.params with
  | none => none
  | some f => f key

/-- Mirror of the classmethod `TwoDiodeJunction.from_reference`: rescales
`j01` and `j02` from the reference temperature `data.t` to `t` using the
band gap, and records `band_gap` and `t_ref` in a `ChainMap` ahead of the
caller-supplied `params`. -/
def from_reference (band_gap t : ℝ) (data : TwoDiodeData)
    (params : Option (String → Option ℝ))
    (options : Option (List (String × String))) : TwoDiodeJunction :=
  let j01 := data.j01 * (t / data.t) ^ (3 : ℕ)
    * Real.exp (-q * band_gap / (data.n1 * kb) * (1 / t - 1 / data.t))
  let j02 := data.j02 * (t / data.t) ^ ((5 : ℝ) / 3)
    * Real.exp (-q * band_gap / (data.n2 * kb) * (1 / t - 1 / data.t))
  let parameters := chainMap
    (fun k => if k = "band_gap" then some band_gap
      else if k = "t_ref" then some data.t else none)
    (fun k => match params with
      | none => none
      | some f => f k)
  { data := { data with t := t, j01 := j01, j02 := j02 },
    params := some parameters, options := options }

/-- Mirror of `TwoDiodeJunction.solve_qe`: `eqe` is the absorption
integrated over `position` per wavelength, `iqe = xr.ones_like(eqe)`. -/
def solve_qe (absorption : Absorption) : QEDataset :=
  let eqe := absorption.values.map (trapezoid absorption.position)
  { eqe := eqe, iqe := eqe.map fun _ => 1 }

/-- Mirror of `TwoDiodeJunction._get_jsc`: zero when either input is absent,
otherwise `q` times the wavelength-integral of `eqe * spectrum`. -/
def get_jsc (absorption : Option Absorption) (light : Option LightSource) : ℝ :=
  match absorption, light with
  | some ab, some ls =>
      q * trapezoid ab.wavelength
        (List.zipWith (fun x y => x * y) (solve_qe ab).eqe
          (ls.spectrum ab.wavelength))
  | _, _ => 0

/-- Mirror of `TwoDiodeJunction.solve_iv`.  `ivParameters` abstracts the
inherited `JunctionBase.iv_parameters` helper.  The `**self.options`
expansion at the `iv2diode` call raises `TypeError` when `options` is
`None`, before any current is computed. -/
def solve_iv (rf : RootFinder)
    (ivParameters : List ℝ → List ℝ → List (String × ℝ))
    (self : TwoDiodeJunction) (voltage : List ℝ)
    (absorption : Option Absorption) (light : Option LightSource) :
    Except PyError IVDataset :=
  let jsc : ℝ := match self.data.jsc with
    | some x => x
    | none => get_jsc absorption light
  match self.options with
  | none => .error .typeError
  | some opts =>
    match iv2diode rf opts voltage { self.data with jsc := some jsc } with
    | .error e => .error e
    | .ok i =>
      .ok { voltage := voltage, current := i,
            attrs := if jsc = 0 then [] else ivParameters voltage i }

/-- Mirror of `TwoDiodeJunction.solve_equilibrium`: unconditionally
`raise NotImplementedError`. -/
def solve_equilibrium (_self : TwoDiodeJunction) : Except PyError Unit :=
  .error .notImplementedError

/-- Mirror of `TwoDiodeJunction.solve_short_circuit`: unconditionally
`raise NotImplementedError`. -/
def solve_short_circuit (_self : TwoDiodeJunction) (_absorption : Absorption)
    (_light : LightSource) : Except PyError IVDataset :=
  .error .notImplementedError

/-- The tolerance contract of the abstract root finder: whenever it reports
success, every component of the residual at the returned point is within
`tol`. -/
def rootWithinTol (rf : RootFinder) (kwargs : List (String × String))
    (tol : ℝ) : Prop :=
  ∀ f guess, (rf kwargs f guess).success = true →
    ∀ r ∈ f ((rf kwargs f guess).x), |r| ≤ tol

/-- A root finder that never succeeds, used to instantiate theorems whose
conclusion must not depend on the root finder. -/
def failRoot : RootFinder :=
  fun _ _ _ => { x := [], success := false, info := "maxfev reached" }

/-- Concrete data with `rs = 0` and a numeric `jsc`, for the C1 witness. -/
def rsZeroData : TwoDiodeData :=
  { t := 300, j01 := 1e-6, j02 := 2e-9, n1 := 1, n2 := 2, rs := 0,
    rsh := 1000, jsc := some 30 }

/-- A root finder that returns the guess unchanged, declaring success
exactly when every residual component at the guess is within `tol`.  It
satisfies `rootWithinTol` by construction. -/
def probeRoot (tol : ℝ) : RootFinder :=
  fun _ f guess =>
    { x := guess, success := decide (∀ r ∈ f guess, |r| ≤ tol),
      info := "probe" }

/-- Concrete data with `rs = 1` whose residual at the initial guess is
exactly zero, for the C2 witness. -/
def rsOneData : TwoDiodeData :=
  { t := 1, j01 := 0, j02 := 0, n1 := 1, n2 := 2, rs := 1,
    rsh := 1, jsc := some 0 }

/-- Dark data: no precomputed `jsc`, `rs = 0`. -/
def darkData : TwoDiodeData :=
  { t := 1, j01 := 0, j02 := 0, n1 := 1, n2 := 2, rs := 0,
    rsh := 1, jsc := none }

/-- A junction with no precomputed `jsc` and a concrete options mapping. -/
def darkJunction : TwoDiodeJunction :=
  { data := darkData, params := none, options := some [] }

/-- A junction left with the default `options = None`. -/
def noOptionsJunction : TwoDiodeJunction :=
  { data := rsZeroData, params := none, options := none }

/-- A performance-parameter extractor that always reports something, to
show `solve_iv` discards it in the dark case. -/
def constParameters : List ℝ → List ℝ → List (String × ℝ) :=
  fun _ _ => [("voc", 1)]

/-- A caller-supplied `params` mapping that tries to set `band_gap` and
`t_ref` itself. -/
def callerParams : String → Option ℝ :=
  fun k => if k = "band_gap" then some 99
    else if k = "t_ref" then some 77 else none

/-- Absorption uniformly `1/2` over positions spanning a width of `2`. -/
def halfAbsorption : Absorption :=
  { wavelength := [400, 500], position := [0, 2],
    values := [[1/2, 1/2], [1/2, 1/2]] }

end

/-- C1: with `rs = 0` and `jsc` set to a number, `iv2diode` returns, without
iteration (for every root finder `rf`), a current array equal to the output
of the explicit evaluator `iv_no_rs`, whose k-th element is
`j01*(exp(q*v[k]/(n1*kB*t)) - 1) + j02*(exp(q*v[k]/(n2*kB*t)) - 1)
 + v[k]/rsh - jsc`, and whose length equals that of `v`. -/
theorem iv2diode_rs_zero_explicit (rf : RootFinder)
    (kwargs : List (String × String)) (v : List ℝ) (data : TwoDiodeData)
    (jscv : ℝ) (hj : data.jsc = some jscv) (hrs : data.rs = 0) :
    iv2diode rf kwargs v data = iv_no_rs v data ∧
    iv2diode rf kwargs v data = Except.ok (v.map fun vk =>
      data.j01 * (Real.exp (q * vk / (data.n1 * kb * data.t)) - 1)
        + data.j02 * (Real.exp (q * vk / (data.n2 * kb * data.t)) - 1)
        + vk / data.rsh - jscv) ∧
    ∀ out, iv2diode rf kwargs v data = Except.ok out →
      out.length = v.length := by
  refine ⟨?_, ?_, ?_⟩
  · simp [iv2diode, iv_no_rs, hj, hrs]
  · simp [iv2diode, hj, hrs, diodeCurrent]
  · intro out hout
    simp [iv2diode, hj, hrs] at hout
    simp [← hout]

/-- Witness for C1 at a concrete input. -/
theorem iv2diode_rs_zero_explicit_witness :
    rsZeroData.jsc = some 30 ∧ rsZeroData.rs = 0 ∧
    (iv2diode failRoot [] [0, 1] rsZeroData = iv_no_rs [0, 1] rsZeroData ∧
      iv2diode failRoot [] [0, 1] rsZeroData =
        Except.ok ([0, 1].map fun vk =>
          rsZeroData.j01 *
              (Real.exp (q * vk / (rsZeroData.n1 * kb * rsZeroData.t)) - 1)
            + rsZeroData.j02 *
              (Real.exp (q * vk / (rsZeroData.n2 * kb * rsZeroData.t)) - 1)
            + vk / rsZeroData.rsh - 30) ∧
      ∀ out, iv2diode failRoot [] [0, 1] rsZeroData = Except.ok out →
        out.length = ([0, 1] : List ℝ).length) :=
  ⟨rfl, rfl, iv2diode_rs_zero_explicit failRoot [] [0, 1] rsZeroData 30 rfl rfl⟩

/-- C6: `from_reference` changes at most `t`, `j01` and `j02`; the fields
`n1`, `n2`, `rs`, `rsh` and the optional `jsc` carry over unchanged (and so
do the supplied solver options). -/
theorem from_reference_carries_over (band_gap t : ℝ) (data : TwoDiodeData)
    (params : Option (String → Option ℝ))
    (options : Option (List (String × String))) :
    (from_reference band_gap t data params options).data.n1 = data.n1 ∧
    (from_reference band_gap t data params options).data.n2 = data.n2 ∧
    (from_reference band_gap t data params options).data.rs = data.rs ∧
    (from_reference band_gap t data params options).data.rsh = data.rsh ∧
    (from_reference band_gap t data params options).data.jsc = data.jsc ∧
    (from_reference band_gap t data params options).data.t = t ∧
    (from_reference band_gap t data params options).options = options :=
  ⟨rfl, rfl, rfl, rfl, rfl, rfl, rfl⟩

/-- C9: `solve_equilibrium` and `solve_short_circuit` unconditionally raise
`NotImplementedError` and never return a result. -/
theorem unimplemented_solves (self : TwoDiodeJunction) (a : Absorption)
    (l : LightSource) :
    solve_equilibrium self = Except.error PyError.notImplementedError ∧
    solve_short_circuit self a l = Except.error PyError.notImplementedError ∧
    (solve_equilibrium self).toOption = none ∧
    (solve_short_circuit self a l).toOption = none :=
  ⟨rfl, rfl, rfl, rfl⟩

/-- C10: when `options` was left at its default `None`, every `solve_iv`
call fails with `TypeError` — before any current is computed, for every
root finder and parameter set, even with `rs = 0` — and no dataset is ever
returned. -/
theorem solve_iv_requires_options (rf : RootFinder)
    (ivParameters : List ℝ → List ℝ → List (String × ℝ))
    (self : TwoDiodeJunction) (voltage : List ℝ)
    (absorption : Option Absorption) (light : Option LightSource)
    (hopt : self.options = none) :
    solve_iv rf ivParameters self voltage absorption light =
      Except.error PyError.typeError ∧
    (solve_iv rf ivParameters self voltage absorption light).toOption =
      none := by
  constructor
  · simp [solve_iv, hopt]
  · simp [solve_iv, hopt, Except.toOption]

/-- Witness for C10: a concrete junction with default options and `rs = 0`. -/
theorem solve_iv_requires_options_witness :
    noOptionsJunction.options = none ∧ noOptionsJunction.data.rs = 0 ∧
    (solve_iv failRoot constParameters noOptionsJunction [0, 1] none none =
        Except.error PyError.typeError ∧
      (solve_iv failRoot constParameters noOptionsJunction [0, 1] none
          none).toOption = none) :=
  ⟨rfl, rfl, solve_iv_requires_options failRoot constParameters
    noOptionsJunction [0, 1] none none rfl⟩

/-- C7 counterexample: `from_reference` stores
`ChainMap({"band_gap": ..., "t_ref": ...}, params)`, and `ChainMap`
consults its first mapping first, so the derived keys shadow the
caller-supplied ones: with caller values `99`/`77` the metadata resolves
to the derived `1`/`297` instead. -/
theorem from_reference_caller_keys_shadowed :
    paramsFind (from_reference 1 300 defaultData (some callerParams) none)
        "band_gap" = some 1 ∧
    paramsFind (from_reference 1 300 defaultData (some callerParams) none)
        "t_ref" = some 297 ∧
    callerParams "band_gap" = some 99 ∧ callerParams "t_ref" = some 77 ∧
    ((1 : ℝ) ≠ 99) ∧ ((297 : ℝ) ≠ 77) := by
  refine ⟨?_, ?_, ?_, ?_, by norm_num, by norm_num⟩
  · simp [from_reference, paramsFind, chainMap]
  · simp [from_reference, paramsFind, chainMap, defaultData]
  · simp [callerParams]
  · simp [callerParams]

/-- C7 amended: in the metadata produced by `from_reference`, the derived
keys `band_gap` and `t_ref` take precedence over any caller-supplied
entries: they always resolve to the `band_gap` argument and the reference
temperature `data.t`. -/
theorem from_reference_derived_keys_precede (band_gap t : ℝ)
    (data : TwoDiodeData) (params : Option (String → Option ℝ))
    (options : Option (List (String × String))) :
    paramsFind (from_reference band_gap t data params options) "band_gap" =
      some band_gap ∧
    paramsFind (from_reference band_gap t data params options) "t_ref" =
      some data.t := by
  constructor
  · simp [from_reference, paramsFind, chainMap]
  · simp [from_reference, paramsFind, chainMap]

/-- C5: extrapolating with `from_reference` to the reference temperature
itself (`t = data.t`, nonzero) leaves `j01` and `j02` unchanged. -/
theorem from_reference_identity_at_reference (band_gap : ℝ)
    (data : TwoDiodeData) (params : Option (String → Option ℝ))
    (options : Option (List (String × String))) (ht : data.t ≠ 0) :
    (from_reference band_gap data.t data params options).data.j01 =
      data.j01 ∧
    (from_reference band_gap data.t data params options).data.j02 =
      data.j02 := by
  constructor
  · simp [from_reference, div_self ht]
  · simp [from_reference, div_self ht, Real.one_rpow]

/-- Witness for C5 at the default reference data. -/
theorem from_reference_identity_at_reference_witness :
    defaultData.t ≠ 0 ∧
    ((from_reference 1.42 defaultData.t defaultData none none).data.j01 =
        defaultData.j01 ∧
      (from_reference 1.42 defaultData.t defaultData none none).data.j02 =
        defaultData.j02) :=
  ⟨by norm_num [defaultData],
    from_reference_identity_at_reference 1.42 defaultData none none
      (by norm_num [defaultData])⟩

/-- C3: with `rs ≠ 0`, when the root finder reports failure `iv2diode`
raises a `RuntimeError` whose message embeds the solver's internal status,
and no numeric current array is returned. -/
theorem iv2diode_nonconvergence_raises (rf : RootFinder)
    (kwargs : List (String × String)) (v : List ℝ) (data : TwoDiodeData)
    (jscv : ℝ) (hj : data.jsc = some jscv) (hrs : data.rs ≠ 0)
    (hfail :
      (rf kwargs (ivResidual v data jscv) (ivGuess v data jscv)).success =
        false) :
    iv2diode rf kwargs v data = Except.error (PyError.runtimeError
      ("The IV calculation failed to converge. Solver info:\n" ++
        (rf kwargs (ivResidual v data jscv) (ivGuess v data jscv)).info)) ∧
    (iv2diode rf kwargs v data).toOption = none := by
  constructor
  · simp [iv2diode, hj, hrs, hfail]
  · simp [iv2diode, hj, hrs, hfail, Except.toOption]

/-- Witness for C3: a failing root finder on concrete data with `rs = 1`. -/
theorem iv2diode_nonconvergence_raises_witness :
    rsOneData.jsc = some 0 ∧ rsOneData.rs ≠ 0 ∧
    (failRoot [] (ivResidual [0] rsOneData 0)
        (ivGuess [0] rsOneData 0)).success = false ∧
    (iv2diode failRoot [] [0] rsOneData = Except.error (PyError.runtimeError
        ("The IV calculation failed to converge. Solver info:\n" ++
          (failRoot [] (ivResidual [0] rsOneData 0)
            (ivGuess [0] rsOneData 0)).info)) ∧
      (iv2diode failRoot [] [0] rsOneData).toOption = none) :=
  ⟨rfl, by norm_num [rsOneData], rfl,
    iv2diode_nonconvergence_raises failRoot [] [0] rsOneData 0 rfl
      (by norm_num [rsOneData]) rfl⟩

/-- C4: when the junction data has no precomputed `jsc` and the absorption
or the light source is absent, the resolved short-circuit current is zero
and any dataset `solve_iv` returns carries an empty attrs mapping (no Voc,
Isc, FF, Vmpp, Impp, Pmpp, eta). -/
theorem solve_iv_dark_no_parameters (rf : RootFinder)
    (ivParameters : List ℝ → List ℝ → List (String × ℝ))
    (self : TwoDiodeJunction) (voltage : List ℝ)
    (absorption : Option Absorption) (light : Option LightSource)
    (hjsc : self.data.jsc = none)
    (hdark : absorption = none ∨ light = none) :
    get_jsc absorption light = 0 ∧
    (solve_iv rf ivParameters self voltage absorption light).toOption.map
        IVDataset.attrs =
      (solve_iv rf ivParameters self voltage absorption light).toOption.map
        fun _ => [] := by
  have h0 : get_jsc absorption light = 0 := by
    cases absorption with
    | none => cases light <;> simp [get_jsc]
    | some ab =>
      cases light with
      | none => simp [get_jsc]
      | some ls => rcases hdark with h | h <;> simp at h
  refine ⟨h0, ?_⟩
  unfold solve_iv
  rw [hjsc]
  cases hop : self.options with
  | none => simp [Except.toOption]
  | some opts =>
    simp only [h0]
    cases hiv : iv2diode rf opts voltage { self.data with jsc := some 0 } with
    | error e => simp [Except.toOption]
    | ok i => simp [Except.toOption]

/-- Witness for C4: a dark junction, no absorption, no light source. -/
theorem solve_iv_dark_no_parameters_witness :
    darkJunction.data.jsc = none ∧
    ((none : Option Absorption) = none ∨ (none : Option LightSource) = none) ∧
    (get_jsc (none : Option Absorption) (none : Option LightSource) = 0 ∧
      (solve_iv failRoot constParameters darkJunction [0] none
          none).toOption.map IVDataset.attrs =
        (solve_iv failRoot constParameters darkJunction [0] none
          none).toOption.map fun _ => []) :=
  ⟨rfl, Or.inl rfl,
    solve_iv_dark_no_parameters failRoot constParameters darkJunction [0]
      none none rfl (Or.inl rfl)⟩

/-- The trapezoidal integral of a constant list of samples telescopes to the
constant times the coordinate span. -/
theorem trapezoid_replicate (c : ℝ) :
    ∀ (x0 : ℝ) (xs : List ℝ),
      trapezoid (x0 :: xs) (List.replicate (x0 :: xs).length c) =
        c * ((x0 :: xs).getLastD 0 - x0) := by
  intro x0 xs
  induction xs generalizing x0 with
  | nil => simp [trapezoid]
  | cons x1 rest ih =>
    have hrep : List.replicate (x0 :: x1 :: rest).length c =
        c :: List.replicate (x1 :: rest).length c := by
      simp [List.replicate]
    rw [hrep]
    have hrep2 : List.replicate (x1 :: rest).length c =
        c :: List.replicate rest.length c := by
      simp [List.replicate]
    calc trapezoid (x0 :: x1 :: rest)
          (c :: List.replicate (x1 :: rest).length c)
        = (x1 - x0) * (c + c) / 2 +
            trapezoid (x1 :: rest) (List.replicate (x1 :: rest).length c) := by
          rw [hrep2]; rfl
      _ = (x1 - x0) * (c + c) / 2 + c * ((x1 :: rest).getLastD 0 - x1) := by
          rw [ih x1]
      _ = c * ((x1 :: rest).getLastD 0 - x0) := by ring
      _ = c * ((x0 :: x1 :: rest).getLastD 0 - x0) := by
          simp [List.getLastD_cons]

/-- C8: `solve_qe` returns `eqe` equal at each wavelength to the trapezoidal
integral of the absorption over position and `iqe` identically one; for
absorption uniformly `1/2` over the position range, each `eqe` entry is
`1/2` times the total position width. -/
theorem solve_qe_integrates_absorption (a : Absorption) :
    (solve_qe a).eqe = a.values.map (trapezoid a.position) ∧
    (∀ x ∈ (solve_qe a).iqe, x = 1) ∧
    ((∀ row ∈ a.values,
        row = List.replicate a.position.length ((1 : ℝ) / 2)) →
      (solve_qe a).eqe = a.values.map fun _ =>
        ((1 : ℝ) / 2) * (a.position.getLastD 0 - a.position.headD 0)) := by
  refine ⟨rfl, ?_, ?_⟩
  · intro x hx
    simp only [solve_qe, List.mem_map] at hx
    obtain ⟨y, _, hy⟩ := hx
    exact hy.symm
  · intro huni
    show a.values.map (trapezoid a.position) = _
    apply List.map_congr_left
    intro row hrow
    rw [huni row hrow]
    cases hp : a.position with
    | nil => simp [trapezoid]
    | cons x0 xs =>
      rw [trapezoid_replicate]
      simp

/-- Witness for C8: uniform absorption `1/2` over a width-2 position range
and two wavelengths. -/
theorem solve_qe_integrates_absorption_witness :
    (∀ row ∈ halfAbsorption.values,
      row = List.replicate halfAbsorption.position.length ((1 : ℝ) / 2)) ∧
    ((solve_qe halfAbsorption).eqe =
        halfAbsorption.values.map (trapezoid halfAbsorption.position) ∧
      (∀ x ∈ (solve_qe halfAbsorption).iqe, x = 1) ∧
      (solve_qe halfAbsorption).eqe = halfAbsorption.values.map fun _ =>
        ((1 : ℝ) / 2) *
          (halfAbsorption.position.getLastD 0 -
            halfAbsorption.position.headD 0)) := by
  have huni : ∀ row ∈ halfAbsorption.values,
      row = List.replicate halfAbsorption.position.length ((1 : ℝ) / 2) := by
    intro row hrow
    simp only [halfAbsorption, List.mem_cons, List.not_mem_nil, or_false] at hrow
    rcases hrow with h | h <;> simp [h, List.replicate]
  obtain ⟨h1, h2, h3⟩ := solve_qe_integrates_absorption halfAbsorption
  exact ⟨huni, h1, h2, h3 huni⟩

/-- When the root finder reports success, `iv2diode` returns its solution
array unmodified. -/
theorem iv2diode_success_eq (rf : RootFinder)
    (kwargs : List (String × String)) (v : List ℝ) (data : TwoDiodeData)
    (jscv : ℝ) (hj : data.jsc = some jscv) (hrs : data.rs ≠ 0)
    (hsucc :
      (rf kwargs (ivResidual v data jscv) (ivGuess v data jscv)).success =
        true) :
    iv2diode rf kwargs v data = Except.ok
      (rf kwargs (ivResidual v data jscv) (ivGuess v data jscv)).x := by
  simp [iv2diode, hj, hrs, hsucc]

/-- C2: with `rs > 0`, whenever `iv2diode` returns a current array `J`
(rather than raising) and the root finder meets its tolerance contract,
every voltage sample and its returned current satisfy the residual law
`|J[k] - I_explicit(v[k] - rs*J[k])| ≤ tol`. -/
theorem iv2diode_residual_law (rf : RootFinder)
    (kwargs : List (String × String)) (tol : ℝ) (v : List ℝ)
    (data : TwoDiodeData) (jscv : ℝ) (J : List ℝ)
    (hcontract : rootWithinTol rf kwargs tol)
    (hj : data.jsc = some jscv) (hrs : 0 < data.rs)
    (hok : iv2diode rf kwargs v data = Except.ok J) :
    ∀ k, (hk : k < J.length) → (hv : k < v.length) →
      |J.get ⟨k, hk⟩ -
          diodeCurrent data jscv
            (v.get ⟨k, hv⟩ - data.rs * J.get ⟨k, hk⟩)| ≤ tol := by
  intro k hk hv
  simp only [iv2diode, hj] at hok
  rw [if_neg hrs.ne'] at hok
  cases hsucc :
      (rf kwargs (ivResidual v data jscv) (ivGuess v data jscv)).success with
  | false => rw [hsucc] at hok; simp at hok
  | true =>
    rw [hsucc] at hok
    simp only [if_true, Except.ok.injEq] at hok
    have hres := hcontract (ivResidual v data jscv) (ivGuess v data jscv) hsucc
    rw [hok] at hres
    have hlen : k < (ivResidual v data jscv J).length := by
      simp only [ivResidual, List.length_zipWith]
      exact lt_min hk hv
    have hmem : (ivResidual v data jscv J)[k] ∈ ivResidual v data jscv J :=
      List.getElem_mem hlen
    have hval : (ivResidual v data jscv J)[k] =
        J[k] - diodeCurrent data jscv (v[k] - data.rs * J[k]) := by
      simp [ivResidual, List.getElem_zipWith]
    have hbound := hres _ hmem
    rw [hval] at hbound
    simpa [List.get_eq_getElem] using hbound

/-- The probing root finder meets the tolerance contract it advertises. -/
theorem probeRoot_withinTol (tol : ℝ) (kwargs : List (String × String)) :
    rootWithinTol (probeRoot tol) kwargs tol := by
  intro f guess h r hr
  simp only [probeRoot] at h
  exact (of_decide_eq_true h) r hr

/-- On `rsOneData` and `v = [0]` the initial guess is `[0]`. -/
theorem ivGuess_rsOneData : ivGuess [0] rsOneData 0 = [0] := by
  simp [ivGuess, listMin, listMax, diodeCurrent, rsOneData]

/-- On `rsOneData` the residual at `[0]` vanishes exactly. -/
theorem ivResidual_rsOneData : ivResidual [0] rsOneData 0 [0] = [0] := by
  simp [ivResidual, diodeCurrent, rsOneData]

/-- The probing root finder succeeds on the `rsOneData` run. -/
theorem probeRoot_rsOneData_success :
    (probeRoot 1 [] (ivResidual [0] rsOneData 0)
      (ivGuess [0] rsOneData 0)).success = true := by
  simp only [probeRoot, ivGuess_rsOneData, ivResidual_rsOneData,
    decide_eq_true_eq]
  intro r hr
  simp only [List.mem_singleton] at hr
  simp [hr]

/-- The concrete `rs = 1` run of `iv2diode` returns `[0]`. -/
theorem iv2diode_rsOneData_ok :
    iv2diode (probeRoot 1) [] [0] rsOneData = Except.ok [0] := by
  rw [iv2diode_success_eq (probeRoot 1) [] [0] rsOneData 0 rfl
    (by norm_num [rsOneData]) probeRoot_rsOneData_success]
  simp [probeRoot, ivGuess_rsOneData]

/-- Witness for C2: the probing root finder on a concrete `rs = 1` run
whose residual is exactly zero. -/
theorem iv2diode_residual_law_witness :
    rootWithinTol (probeRoot 1) [] 1 ∧ rsOneData.jsc = some 0 ∧
    (0 : ℝ) < rsOneData.rs ∧
    iv2diode (probeRoot 1) [] [0] rsOneData = Except.ok [0] ∧
    |([0] : List ℝ).get ⟨0, by norm_num⟩ -
        diodeCurrent rsOneData 0
          (([0] : List ℝ).get ⟨0, by norm_num⟩ -
            rsOneData.rs * ([0] : List ℝ).get ⟨0, by norm_num⟩)| ≤ 1 :=
  ⟨probeRoot_withinTol 1 [], rfl, by norm_num [rsOneData],
    iv2diode_rsOneData_ok,
    iv2diode_residual_law (probeRoot 1) [] 1 [0] rsOneData 0 [0]
      (probeRoot_withinTol 1 []) rfl (by norm_num [rsOneData])
      iv2diode_rsOneData_ok 0 (by norm_num) (by norm_num)⟩

end Solcore
